import Mathlib

/-!
Verification of the meeting recording/transcription/summarization lifecycle
controller of this repository (the `MeetingSummarizer` component together with
the Hugging Face transcription client `transcribeAudio`).

The embedding models:
* `MeetingSummary` — the persisted record type (interface `MeetingSummary`);
* `transcribeAudio` — the Hugging Face transcription client, with the outcome
  of the remote call (including the base64 conversion that precedes it)
  abstracted as an `HfApiOutcome` value;
* `stopRecording` — the controller's stop transition, with the external
  collaborators (Google speech client, Gemini `summarizeMeeting`, wall clock)
  supplied through a `StopEnv` record;
* the per-second duration watchdog effect (`watchdogActive`, `watchdogTick`);
* the history-load effect run at mount (`historyLoad`).

Machine details that are pure I/O plumbing (media streams, object URLs, JSON
serialization) are abstracted: an audio chunk is represented by its byte size,
the persisted history entry by the deserialized list it encodes, and the raw
`localStorage` string only where the load path inspects it.
-/

/-- One completed meeting, as persisted in history
(interface `MeetingSummary` in the controller source). -/
structure MeetingSummary where
  id : String
  date : String
  duration : Nat
  summary : String
  transcript : String
deriving DecidableEq, Repr

/-- The two selectable speech-to-text services (`type SpeechService`). -/
inductive SpeechService where
  | huggingface
  | google
deriving DecidableEq, Repr

/-- State of the platform media recorder (`MediaRecorder.state`). -/
inductive RecorderState where
  | recording
  | paused
  | inactive
deriving DecidableEq, Repr

/-- Outcome of the remote Hugging Face automatic-speech-recognition call,
together with the `blobToBase64` conversion that precedes it.  A rejection of
either step surfaces as a thrown value: `raised msg` is a thrown `Error` whose
message is `msg`; `raisedNonError` is a thrown non-`Error` value.  `ok text` is
a response carrying a string `text` field; `invalid` is a response whose `text`
field is missing or not a string. -/
inductive HfApiOutcome where
  | ok (text : String)
  | invalid
  | raised (msg : String)
  | raisedNonError
deriving DecidableEq, Repr

/-- A value thrown inside the `try` body of `transcribeAudio`:
either an `Error` carrying a message, or a non-`Error` value. -/
inductive Thrown where
  | errMsg (msg : String)
  | nonError
deriving DecidableEq, Repr

/-- JavaScript `String.prototype.toLowerCase` (ASCII range, which is all the
error-pattern matching needs): lowercase every character. -/
def jsToLower (s : String) : String :=
  ⟨s.data.map Char.toLower⟩

/-- JavaScript `String.prototype.trim`: strip leading and trailing
whitespace. -/
def jsTrim (s : String) : String :=
  ⟨((s.data.dropWhile Char.isWhitespace).reverse.dropWhile Char.isWhitespace).reverse⟩

/-- JavaScript `String.prototype.includes` on char lists:
does `pat` occur as a contiguous sublist? -/
def listIncludes (pat : List Char) : List Char → Bool
  | [] => pat.isEmpty
  | c :: rest => pat.isPrefixOf (c :: rest) || listIncludes pat rest

/-- JavaScript `hay.includes(pat)`. -/
def strIncludes (hay pat : String) : Bool :=
  listIncludes pat.data hay.data

/-- The soft informational result for an empty transcription. -/
def msgNoSpeech : String :=
  "No speech detected in the recording. Please try again with clearer audio."

/-- The fallback return value when a non-`Error` value is thrown. -/
def msgTranscribeFallback : String :=
  "Failed to transcribe audio. Please try again with a different recording."

/-- The `try` body of `transcribeAudio` (validation, key lookup, remote call,
empty-result softening), before the `catch` clause.  `blobSize` is
`audioBlob.size`, `hfKeySet` whether `VITE_HUGGINGFACE_API_KEY` is present. -/
def transcribeBody (blobSize : Nat) (hfKeySet : Bool) (api : HfApiOutcome) :
    Except Thrown String :=
  if blobSize = 0 then
    Except.error (Thrown.errMsg "No audio data was recorded. Please try again.")
  else if blobSize < 1000 then
    Except.error (Thrown.errMsg
      "Audio recording is too short. Please record for a longer duration.")
  else if !hfKeySet then
    Except.error (Thrown.errMsg
      "Hugging Face API key is not set. Please add your API key to the .env file.")
  else
    match api with
    | HfApiOutcome.raised msg => Except.error (Thrown.errMsg msg)
    | HfApiOutcome.raisedNonError => Except.error Thrown.nonError
    | HfApiOutcome.invalid =>
        Except.error (Thrown.errMsg "Invalid response from Hugging Face API")
    | HfApiOutcome.ok t =>
        if jsTrim t = "" then
          Except.ok msgNoSpeech
        else
          Except.ok t

/-- The `catch` clause of `transcribeAudio` for a thrown `Error`: pattern-match
the lowercased message and rethrow a specific message (`Except.error`), or fall
back to returning `Transcription failed: <message>` normally (`Except.ok`). -/
def mapHfError (msg : String) : Except String String :=
  let em := jsToLower msg
  if strIncludes em "api key" || strIncludes em "apikey" then
    Except.error "Missing or invalid Hugging Face API key. Please check your .env file."
  else if strIncludes em "429" || strIncludes em "too many requests" then
    Except.error "Too many requests to Hugging Face API. Please try again later."
  else if strIncludes em "413" || strIncludes em "too large" then
    Except.error
      "Audio file is too large. Please record a shorter audio clip (maximum 30 seconds recommended)."
  else if strIncludes em "400" || strIncludes em "invalid format" then
    Except.error "Invalid audio format. The model may not support this audio format."
  else if strIncludes em "404" || strIncludes em "not found" then
    Except.error "Model not found. The specified model may not be available."
  else if strIncludes em "401" || strIncludes em "unauthorized" then
    Except.error "Unauthorized. Your Hugging Face API key may be invalid."
  else if strIncludes em "network" || strIncludes em "connection" then
    Except.error
      "Network error when connecting to Hugging Face API. Please check your internet connection."
  else if strIncludes em "timeout" then
    Except.error
      "Request to Hugging Face API timed out. The audio might be too long or the service is busy."
  else
    Except.ok ("Transcription failed: " ++ msg)

/-- Function `transcribeAudio` of the Hugging Face client: run the body, and on a thrown
value apply the `catch` clause.  `Except.error m` models the function throwing
an `Error` with message `m` to its caller; `Except.ok t` models a normal
return of the string `t`. -/
def transcribeAudio (blobSize : Nat) (hfKeySet : Bool) (api : HfApiOutcome) :
    Except String String :=
  match transcribeBody blobSize hfKeySet api with
  | Except.ok t => Except.ok t
  | Except.error (Thrown.errMsg m) => mapHfError m
  | Except.error Thrown.nonError =>
      Except.ok msgTranscribeFallback

/-- The controller state of `MeetingSummarizer` that the stop transition and
the watchdog read or write.  `recorder` is the media recorder handle
(`mediaRecorderRef.current`, `none` when never created); `audioChunks` holds
the byte sizes of the buffered chunks (`audioChunksRef.current`); `storage`
is the deserialized content of the `meetingSummaryHistory` entry in
`localStorage` (`none` when the key is absent); `audioURL` is the object URL
of the audio preview. -/
structure CState where
  recorder : Option RecorderState
  audioChunks : List Nat
  isRecording : Bool
  isPaused : Bool
  startTime : Option Nat
  duration : Nat
  transcript : String
  transcribing : Bool
  loading : Bool
  summary : Option String
  error : Option String
  summaryHistory : List MeetingSummary
  storage : Option (List MeetingSummary)
  audioURL : Option String
deriving DecidableEq, Repr

/-- Environment of one `stopRecording` run: configuration
(selected service and which API keys are present), the outcomes of the three
external calls (`transcribeAudio` remote call, `transcribeWithGoogleSpeech`,
`summarizeMeeting` — `Except.error m` models a rejection with message `m`),
whether `mediaRecorder.stop()` itself throws (`stopFail`), and the wall clock
(`nowMs` is `Date.now()`, `dateISO` is `new Date().toISOString()`). -/
structure StopEnv where
  service : SpeechService
  hfKeySet : Bool
  googleKeySet : Bool
  geminiKeySet : Bool
  hfApi : HfApiOutcome
  googleResult : Except String String
  summarizeResult : Except String String
  stopFail : Option String
  nowMs : Nat
  dateISO : String

/-- Result of a `stopRecording` run: the new controller state plus whether a
transcription provider call and the `summarizeMeeting` call were made. -/
structure StopResult where
  state : CState
  transcribeInvoked : Bool
  summarizeInvoked : Bool
deriving DecidableEq, Repr

/-- Size `audioBlob.size`: the concatenated artifact is as large as the chunks
it is built from. -/
def chunksSize (chunks : List Nat) : Nat := chunks.sum

/-- The MeetingSummary record built on a successful summarization:
`id` is `Date.now().toString()`, `date` is `new Date().toISOString()`. -/
def mkMeetingSummary (nowMs : Nat) (dateISO : String) (dur : Nat)
    (sum t : String) : MeetingSummary :=
  { id := Nat.repr nowMs, date := dateISO, duration := dur,
    summary := sum, transcript := t }

/-- The `finally` clause of the audio-processing block:
`setTranscribing(false); setLoading(false)`. -/
def finalizeFlags (s : CState) : CState :=
  { s with transcribing := false, loading := false }

/-- The provider dispatch inside `stopRecording`: key check for the selected
service, then the provider call.  Returns the transcription outcome and
whether a provider call was actually made. -/
def transcribeStep (blobSize : Nat) (env : StopEnv) :
    Except String String × Bool :=
  match env.service with
  | SpeechService.huggingface =>
      if env.hfKeySet then
        (transcribeAudio blobSize env.hfKeySet env.hfApi, true)
      else
        (Except.error
          "Hugging Face API key is not set. Please add your API key to the .env file or switch to Google Cloud Speech.",
         false)
  | SpeechService.google =>
      if env.googleKeySet then
        (env.googleResult, true)
      else
        (Except.error
          "Google Cloud API key is not set. Please add your API key to the .env file or switch to Hugging Face.",
         false)


/-- Controller message for a below-threshold artifact. -/
def msgTooShortOrEmpty : String :=
  "Audio recording is too short or empty. Please try again or use the \"Test with Sample Text\" option."

/-- Controller message when no chunk was captured at all. -/
def msgNoAudioData : String :=
  "No audio data was recorded. Please try again or use the \"Test with Sample Text\" option."

/-- Controller message for an empty transcription result. -/
def msgNoTranscription : String :=
  "No transcription was returned. The audio might be too quiet or in an unsupported language."

/-- Controller message for a missing Gemini key. -/
def msgGeminiMissing : String :=
  "Google Gemini API key is not set. Please add your API key to the .env file."

/-- The audio-processing block of `stopRecording` (the branch taken when at
least one chunk was captured): size validation, transcription, the empty-text
check, the Gemini key check, summarization, record construction and history
persistence, with the two `catch` clauses and the `finally`. -/
def processAudio (s0 : CState) (env : StopEnv) : StopResult :=
  let s := { s0 with transcribing := true, error := none }
  let blobSize := chunksSize s.audioChunks
  if blobSize < 1000 then
    ⟨finalizeFlags { s with error := some msgTooShortOrEmpty }, false, false⟩
  else
    match transcribeStep blobSize env with
    | (Except.error m, inv) => ⟨finalizeFlags { s with error := some m }, inv, false⟩
    | (Except.ok t, inv) =>
      if jsTrim t = "" then
        ⟨finalizeFlags { s with error := some msgNoTranscription }, inv, false⟩
      else
        let s := { s with transcript := t }
        if !env.geminiKeySet then
          ⟨finalizeFlags { s with error := some msgGeminiMissing }, inv, false⟩
        else
          let s := { s with loading := true }
          match env.summarizeResult with
          | Except.ok sum =>
              let newRecord := mkMeetingSummary env.nowMs env.dateISO s.duration sum t
              let updatedHistory := newRecord :: s.summaryHistory
              ⟨finalizeFlags { s with summary := some sum,
                                      summaryHistory := updatedHistory,
                                      storage := some updatedHistory },
               inv, true⟩
          | Except.error m =>
              ⟨finalizeFlags { s with error := some m }, inv, true⟩

/-- The `stopRecording` transition of the controller: early return when there
is no active media recorder, recorder teardown (with its own `catch`), then
either the audio-processing block or the no-audio error. -/
def stopRecording (s : CState) (env : StopEnv) : StopResult :=
  match s.recorder with
  | none => ⟨s, false, false⟩
  | some r =>
    if r = RecorderState.inactive then
      ⟨s, false, false⟩
    else
      match env.stopFail with
      | some m =>
          ⟨{ s with recorder := some RecorderState.inactive,
                    isRecording := false, isPaused := false, error := some m },
           false, false⟩
      | none =>
          let s1 := { s with recorder := some RecorderState.inactive,
                             isRecording := false, isPaused := false }
          if s1.audioChunks.length > 0 then
            processAudio s1 env
          else
            ⟨{ s1 with error := some msgNoAudioData }, false, false⟩

/-- The recording ceiling (`maxRecordingDuration`), in seconds. -/
def maxRecordingDuration : Nat := 1000

/-- The condition under which the duration-watchdog effect installs its
one-second interval: a start time exists and the session is not paused
(`if (startTime && !isPaused)`). -/
def watchdogActive (s : CState) : Bool :=
  s.startTime.isSome && !s.isPaused

/-- One tick of the duration watchdog: recompute the elapsed seconds from the
wall clock, store it in `duration`, and invoke `stopRecording` when it has
reached `maxRecordingDuration`. -/
def watchdogTick (s : CState) (nowMs : Nat) (env : StopEnv) : StopResult :=
  match s.startTime with
  | none => ⟨s, false, false⟩
  | some startMs =>
      let diff := (nowMs - startMs) / 1000
      let s1 := { s with duration := diff }
      if diff ≥ maxRecordingDuration then stopRecording s1 env
      else ⟨s1, false, false⟩

/-- The history-load effect run at mount: read the `meetingSummaryHistory`
entry and parse it only when it is truthy (present and not the empty string).
`parse` stands for `JSON.parse` on the stored serialization. -/
def mountLoadHistory (s : CState) (stored : Option String)
    (parse : String → List MeetingSummary) : CState :=
  match stored with
  | none => s
  | some raw => if raw = "" then s else { s with summaryHistory := parse raw }

/-- The controller state right after the `useState` initializers run. -/
def initialState : CState :=
  { recorder := none, audioChunks := [], isRecording := false,
    isPaused := false, startTime := none, duration := 0, transcript := "",
    transcribing := false, loading := false, summary := none, error := none,
    summaryHistory := [], storage := none, audioURL := none }

/-- Fixture environment: Hugging Face selected, all keys present, the remote
call returns `hello world`, summarization succeeds. -/
def envOk : StopEnv :=
  { service := SpeechService.huggingface, hfKeySet := true,
    googleKeySet := false, geminiKeySet := true,
    hfApi := HfApiOutcome.ok "hello world",
    googleResult := Except.error "unused",
    summarizeResult := Except.ok "Team discussed hello world.",
    stopFail := none, nowMs := 1700000000000,
    dateISO := "2023-11-14T22:13:20.000Z" }

/-- Fixture state: an active recording session with three 1000-byte chunks,
12 elapsed seconds, and a preview URL already produced. -/
def recState : CState :=
  { recorder := some RecorderState.recording,
    audioChunks := [1000, 1000, 1000],
    isRecording := true, isPaused := false, startTime := some 0,
    duration := 12, transcript := "", transcribing := false, loading := false,
    summary := none, error := none, summaryHistory := [], storage := none,
    audioURL := some "blob:preview" }

/-- Decimal decoding of a digit-character list; inverts `Nat.repr` when
reasoning about record ids. -/
def decodeDigits (l : List Char) : Nat :=
  l.foldl (fun a c => 10 * a + (c.toNat - 48)) 0

example : transcribeAudio 2000 true (HfApiOutcome.ok "hello") = Except.ok "hello" := rfl

example : transcribeAudio 2000 true (HfApiOutcome.ok "  ")
    = Except.ok "No speech detected in the recording. Please try again with clearer audio." := rfl

example : transcribeAudio 2000 true (HfApiOutcome.raised "HTTP 429")
    = Except.error "Too many requests to Hugging Face API. Please try again later." := rfl

example : transcribeAudio 2000 true (HfApiOutcome.raised "Unexpected token")
    = Except.ok "Transcription failed: Unexpected token" := rfl

/-- C6: calling `stop()` with no active recording session (no recorder was
ever created, or the recorder is already inactive) returns the controller
state unchanged, raises no error, and invokes neither external client. -/
theorem stopRecording_noop_when_idle (s : CState) (env : StopEnv)
    (h : s.recorder = none ∨ s.recorder = some RecorderState.inactive) :
    stopRecording s env = ⟨s, false, false⟩ := by
  cases h with
  | inl h => simp [stopRecording, h]
  | inr h => simp [stopRecording, h]

/-- Witness for C6 at the initial controller state. -/
theorem stopRecording_noop_when_idle_witness :
    stopRecording initialState envOk = ⟨initialState, false, false⟩ :=
  stopRecording_noop_when_idle initialState envOk (Or.inl rfl)

/-- C7: at controller initialization, loading a missing (`none`) or empty
(`""`, which is falsy in the source's truthiness test) persisted history
value leaves the History sequence empty and surfaces no error, for every
possible behavior of the JSON parser. -/
theorem mountLoadHistory_empty_or_missing (stored : Option String)
    (parse : String → List MeetingSummary)
    (h : stored = none ∨ stored = some "") :
    (mountLoadHistory initialState stored parse).summaryHistory = [] ∧
    (mountLoadHistory initialState stored parse).error = none := by
  cases h with
  | inl h => simp [mountLoadHistory, h, initialState]
  | inr h => simp [mountLoadHistory, h, initialState]

/-- Witness for C7 at a concrete parser and a missing stored value. -/
theorem mountLoadHistory_empty_or_missing_witness :
    (mountLoadHistory initialState none (fun _ => [])).summaryHistory = [] ∧
    (mountLoadHistory initialState none (fun _ => [])).error = none :=
  mountLoadHistory_empty_or_missing none (fun _ => []) (Or.inl rfl)

/-- C5: when `stop()` runs on an active session and either no audio chunk was
captured or the concatenated artifact is smaller than 1000 bytes, the
controller surfaces the corresponding empty-recording message, ends up idle
(not recording, not transcribing, not loading), and invokes neither a
transcription provider nor the summarizer. -/
theorem stopRecording_empty_recording (s : CState) (env : StopEnv)
    (hrec : s.recorder = some RecorderState.recording)
    (hstop : env.stopFail = none) :
    (s.audioChunks = [] → s.transcribing = false → s.loading = false →
      stopRecording s env =
        ⟨{ s with recorder := some RecorderState.inactive,
                  isRecording := false, isPaused := false,
                  error := some msgNoAudioData }, false, false⟩) ∧
    (s.audioChunks ≠ [] → chunksSize s.audioChunks < 1000 →
      stopRecording s env =
        ⟨{ s with recorder := some RecorderState.inactive,
                  isRecording := false, isPaused := false,
                  transcribing := false, loading := false,
                  error := some msgTooShortOrEmpty }, false, false⟩) := by
  constructor
  · intro hchunks htr hld
    simp [stopRecording, hrec, hstop, hchunks]
  · intro hchunks hsize
    have hlen : 0 < s.audioChunks.length := List.length_pos.mpr hchunks
    simp [stopRecording, hrec, hstop, hlen, Nat.pos_iff_ne_zero.mp hlen,
      processAudio, hsize, finalizeFlags]

/-- Witness for C5: a 500-byte single-chunk artifact yields the
too-short message without any provider call. -/
theorem stopRecording_empty_recording_witness :
    stopRecording { recState with audioChunks := [500] } envOk =
      ⟨{ recState with audioChunks := [500],
                       recorder := some RecorderState.inactive,
                       isRecording := false, isPaused := false,
                       transcribing := false, loading := false,
                       error := some msgTooShortOrEmpty }, false, false⟩ :=
  (stopRecording_empty_recording { recState with audioChunks := [500] } envOk rfl rfl).2
    (by decide) (by decide)

/-- C1: on a run where `stop()` finalizes a non-empty artifact of at least the
1000-byte threshold, transcription returns text that is non-empty after
trimming, and summarization succeeds, exactly one new MeetingRecord carrying
that transcript and summary is prepended to History, and the persisted entry
is rewritten to exactly the updated list. -/
theorem stopRecording_success_prepends_record (s : CState) (env : StopEnv)
    (t sum : String)
    (hrec : s.recorder = some RecorderState.recording)
    (hstop : env.stopFail = none)
    (hchunks : s.audioChunks ≠ [])
    (hsize : 1000 ≤ chunksSize s.audioChunks)
    (hsvc : env.service = SpeechService.huggingface)
    (hkey : env.hfKeySet = true)
    (htr : transcribeAudio (chunksSize s.audioChunks) env.hfKeySet env.hfApi
             = Except.ok t)
    (htne : jsTrim t ≠ "")
    (hg : env.geminiKeySet = true)
    (hsum : env.summarizeResult = Except.ok sum) :
    (stopRecording s env).state.summaryHistory
        = mkMeetingSummary env.nowMs env.dateISO s.duration sum t
            :: s.summaryHistory ∧
    (stopRecording s env).state.storage
        = some ((stopRecording s env).state.summaryHistory) ∧
    (stopRecording s env).state.transcript = t ∧
    (stopRecording s env).state.summary = some sum ∧
    (stopRecording s env).summarizeInvoked = true := by
  have hlen : 0 < s.audioChunks.length := List.length_pos.mpr hchunks
  rw [hkey] at htr
  simp [stopRecording, hrec, hstop, hlen, Nat.pos_iff_ne_zero.mp hlen,
    processAudio, Nat.not_lt.mpr hsize, transcribeStep, hsvc, hkey, htr,
    htne, hg, hsum, finalizeFlags]

/-- Witness for C1 at the fixture session: the sample transcript and summary
land in the single new record and in storage. -/
theorem stopRecording_success_prepends_record_witness :
    (stopRecording recState envOk).state.summaryHistory
        = mkMeetingSummary envOk.nowMs envOk.dateISO recState.duration
            "Team discussed hello world." "hello world" :: recState.summaryHistory ∧
    (stopRecording recState envOk).state.storage
        = some ((stopRecording recState envOk).state.summaryHistory) ∧
    (stopRecording recState envOk).state.transcript = "hello world" ∧
    (stopRecording recState envOk).state.summary
        = some "Team discussed hello world." ∧
    (stopRecording recState envOk).summarizeInvoked = true :=
  stopRecording_success_prepends_record recState envOk "hello world"
    "Team discussed hello world." rfl rfl (by decide) (by decide) rfl rfl rfl
    (by decide) rfl rfl

/-- C2: when transcription succeeds with usable text but summarization fails,
History and its persisted copy are untouched, the transcript remains visible,
and the summarization error message fills the error slot. -/
theorem stopRecording_summary_failure_frame (s : CState) (env : StopEnv)
    (t m : String)
    (hrec : s.recorder = some RecorderState.recording)
    (hstop : env.stopFail = none)
    (hchunks : s.audioChunks ≠ [])
    (hsize : 1000 ≤ chunksSize s.audioChunks)
    (hsvc : env.service = SpeechService.huggingface)
    (hkey : env.hfKeySet = true)
    (htr : transcribeAudio (chunksSize s.audioChunks) env.hfKeySet env.hfApi
             = Except.ok t)
    (htne : jsTrim t ≠ "")
    (hg : env.geminiKeySet = true)
    (hsum : env.summarizeResult = Except.error m) :
    (stopRecording s env).state.summaryHistory = s.summaryHistory ∧
    (stopRecording s env).state.storage = s.storage ∧
    (stopRecording s env).state.transcript = t ∧
    (stopRecording s env).state.error = some m ∧
    (stopRecording s env).summarizeInvoked = true := by
  have hlen : 0 < s.audioChunks.length := List.length_pos.mpr hchunks
  rw [hkey] at htr
  simp [stopRecording, hrec, hstop, hlen, Nat.pos_iff_ne_zero.mp hlen,
    processAudio, Nat.not_lt.mpr hsize, transcribeStep, hsvc, hkey, htr,
    htne, hg, hsum, finalizeFlags]

/-- Witness for C2: a failing Gemini call on the fixture session. -/
theorem stopRecording_summary_failure_frame_witness :
    (stopRecording recState
        { envOk with summarizeResult := Except.error "Failed to generate summary" }).state.summaryHistory
        = recState.summaryHistory ∧
    (stopRecording recState
        { envOk with summarizeResult := Except.error "Failed to generate summary" }).state.storage
        = recState.storage ∧
    (stopRecording recState
        { envOk with summarizeResult := Except.error "Failed to generate summary" }).state.transcript
        = "hello world" ∧
    (stopRecording recState
        { envOk with summarizeResult := Except.error "Failed to generate summary" }).state.error
        = some "Failed to generate summary" ∧
    (stopRecording recState
        { envOk with summarizeResult := Except.error "Failed to generate summary" }).summarizeInvoked
        = true :=
  stopRecording_summary_failure_frame recState
    { envOk with summarizeResult := Except.error "Failed to generate summary" }
    "hello world" "Failed to generate summary" rfl rfl (by decide) (by decide)
    rfl rfl rfl (by decide) rfl rfl

/-- C9: when the provider returns a transcription that is empty after
trimming, `transcribeAudio` returns the informational no-speech message
normally instead of throwing; the controller run then shows that message as
the transcript, sets no error (summarization succeeding), and leaves the
audio artifact untouched. -/
theorem transcription_empty_is_soft (s : CState) (env : StopEnv) (w sum : String)
    (hrec : s.recorder = some RecorderState.recording)
    (hstop : env.stopFail = none)
    (hchunks : s.audioChunks ≠ [])
    (hsize : 1000 ≤ chunksSize s.audioChunks)
    (hsvc : env.service = SpeechService.huggingface)
    (hkey : env.hfKeySet = true)
    (hapi : env.hfApi = HfApiOutcome.ok w)
    (hw : jsTrim w = "")
    (hg : env.geminiKeySet = true)
    (hsum : env.summarizeResult = Except.ok sum) :
    transcribeAudio (chunksSize s.audioChunks) env.hfKeySet env.hfApi
        = Except.ok msgNoSpeech ∧
    (stopRecording s env).state.transcript = msgNoSpeech ∧
    (stopRecording s env).state.error = none ∧
    (stopRecording s env).state.audioURL = s.audioURL := by
  have h0 : chunksSize s.audioChunks ≠ 0 := by omega
  have htr : transcribeAudio (chunksSize s.audioChunks) env.hfKeySet env.hfApi
      = Except.ok msgNoSpeech := by
    rw [hkey, hapi]
    simp [transcribeAudio, transcribeBody, h0, Nat.not_lt.mpr hsize, hw]
  refine ⟨htr, ?_⟩
  rw [hkey] at htr
  have hlen : 0 < s.audioChunks.length := List.length_pos.mpr hchunks
  have hmsg : jsTrim msgNoSpeech ≠ "" := by decide
  simp [stopRecording, hrec, hstop, hlen, Nat.pos_iff_ne_zero.mp hlen,
    processAudio, Nat.not_lt.mpr hsize, transcribeStep, hsvc, hkey, htr,
    hmsg, hg, hsum, finalizeFlags]

/-- Witness for C9: a whitespace-only provider transcription on the
fixture session. -/
theorem transcription_empty_is_soft_witness :
    transcribeAudio (chunksSize recState.audioChunks)
        ({ envOk with hfApi := HfApiOutcome.ok "   " }).hfKeySet
        ({ envOk with hfApi := HfApiOutcome.ok "   " }).hfApi
        = Except.ok msgNoSpeech ∧
    (stopRecording recState
        { envOk with hfApi := HfApiOutcome.ok "   " }).state.transcript
        = msgNoSpeech ∧
    (stopRecording recState
        { envOk with hfApi := HfApiOutcome.ok "   " }).state.error = none ∧
    (stopRecording recState
        { envOk with hfApi := HfApiOutcome.ok "   " }).state.audioURL
        = recState.audioURL :=
  transcription_empty_is_soft recState
    { envOk with hfApi := HfApiOutcome.ok "   " }
    "   " "Team discussed hello world." rfl rfl (by decide) (by decide)
    rfl rfl rfl (by decide) rfl rfl

/-- Counterexample to C3 as stated: on a run whose transcription result is
empty (the claimed `empty result` failure sub-case), the controller does not
surface any error and the summarization client IS invoked — on the soft
no-speech text — so the empty-result case does not behave like the other
transcription failures. -/
theorem transcription_empty_result_invokes_summarizer :
    (stopRecording recState
        { envOk with hfApi := HfApiOutcome.ok "   " }).summarizeInvoked = true ∧
    (stopRecording recState
        { envOk with hfApi := HfApiOutcome.ok "   " }).state.error = none := by
  decide

/-- C3 as amended: for every transcription failure that `transcribeAudio`
maps to a thrown error (auth/key, rate limiting, payload-too-large,
unsupported format, not-found, unauthorized, network, timeout — i.e. every
message the `catch` clause recognizes), the controller ends idle with that
error message, preserves the audio artifact, leaves History untouched, and
never invokes the summarization client. -/
theorem stopRecording_transcription_error (s : CState) (env : StopEnv)
    (em m : String)
    (hrec : s.recorder = some RecorderState.recording)
    (hstop : env.stopFail = none)
    (hchunks : s.audioChunks ≠ [])
    (hsize : 1000 ≤ chunksSize s.audioChunks)
    (hsvc : env.service = SpeechService.huggingface)
    (hkey : env.hfKeySet = true)
    (hapi : env.hfApi = HfApiOutcome.raised em)
    (hmap : mapHfError em = Except.error m) :
    (stopRecording s env).state.error = some m ∧
    (stopRecording s env).summarizeInvoked = false ∧
    (stopRecording s env).state.isRecording = false ∧
    (stopRecording s env).state.transcribing = false ∧
    (stopRecording s env).state.loading = false ∧
    (stopRecording s env).state.audioURL = s.audioURL ∧
    (stopRecording s env).state.summaryHistory = s.summaryHistory := by
  have h0 : chunksSize s.audioChunks ≠ 0 := by omega
  have htr : transcribeAudio (chunksSize s.audioChunks) true env.hfApi
      = Except.error m := by
    rw [hapi]
    simp [transcribeAudio, transcribeBody, h0, Nat.not_lt.mpr hsize, hmap]
  have hlen : 0 < s.audioChunks.length := List.length_pos.mpr hchunks
  simp [stopRecording, hrec, hstop, hlen, Nat.pos_iff_ne_zero.mp hlen,
    processAudio, Nat.not_lt.mpr hsize, transcribeStep, hsvc, hkey, htr,
    finalizeFlags]

/-- Witness for the amended C3: a thrown rate-limit error (`HTTP 429`)
surfaces the mapped message and skips summarization. -/
theorem stopRecording_transcription_error_witness :
    (stopRecording recState
        { envOk with hfApi := HfApiOutcome.raised "HTTP 429" }).state.error
        = some "Too many requests to Hugging Face API. Please try again later." ∧
    (stopRecording recState
        { envOk with hfApi := HfApiOutcome.raised "HTTP 429" }).summarizeInvoked
        = false ∧
    (stopRecording recState
        { envOk with hfApi := HfApiOutcome.raised "HTTP 429" }).state.isRecording
        = false ∧
    (stopRecording recState
        { envOk with hfApi := HfApiOutcome.raised "HTTP 429" }).state.transcribing
        = false ∧
    (stopRecording recState
        { envOk with hfApi := HfApiOutcome.raised "HTTP 429" }).state.loading
        = false ∧
    (stopRecording recState
        { envOk with hfApi := HfApiOutcome.raised "HTTP 429" }).state.audioURL
        = recState.audioURL ∧
    (stopRecording recState
        { envOk with hfApi := HfApiOutcome.raised "HTTP 429" }).state.summaryHistory
        = recState.summaryHistory :=
  stopRecording_transcription_error recState
    { envOk with hfApi := HfApiOutcome.raised "HTTP 429" }
    "HTTP 429" "Too many requests to Hugging Face API. Please try again later."
    rfl rfl (by decide) (by decide) rfl rfl rfl rfl

/-- C10: when the remote call throws an `Error` whose message matches none of
the recognized patterns, `transcribeAudio` returns normally with
`Transcription failed: <message>`; when the thrown value is not an `Error` it
returns the fixed fallback sentence; and the controller then stores that
error text as the transcript and proceeds to summarize it. -/
theorem transcribeAudio_unrecognized_failure (s : CState) (env : StopEnv)
    (em : String)
    (hpat : ∀ p ∈ ["api key", "apikey", "429", "too many requests", "413",
        "too large", "400", "invalid format", "404", "not found", "401",
        "unauthorized", "network", "connection", "timeout"],
        strIncludes (jsToLower em) p = false)
    (hrec : s.recorder = some RecorderState.recording)
    (hstop : env.stopFail = none)
    (hchunks : s.audioChunks ≠ [])
    (hsize : 1000 ≤ chunksSize s.audioChunks)
    (hsvc : env.service = SpeechService.huggingface)
    (hkey : env.hfKeySet = true)
    (hapi : env.hfApi = HfApiOutcome.raised em)
    (htne : jsTrim ("Transcription failed: " ++ em) ≠ "")
    (hg : env.geminiKeySet = true) :
    transcribeAudio (chunksSize s.audioChunks) env.hfKeySet env.hfApi
        = Except.ok ("Transcription failed: " ++ em) ∧
    transcribeAudio (chunksSize s.audioChunks) env.hfKeySet
        HfApiOutcome.raisedNonError = Except.ok msgTranscribeFallback ∧
    (stopRecording s env).state.transcript = "Transcription failed: " ++ em ∧
    (stopRecording s env).summarizeInvoked = true := by
  have h0 : chunksSize s.audioChunks ≠ 0 := by omega
  have hmap : mapHfError em = Except.ok ("Transcription failed: " ++ em) := by
    simp only [mapHfError, hpat "api key" (by simp), hpat "apikey" (by simp),
      hpat "429" (by simp), hpat "too many requests" (by simp),
      hpat "413" (by simp), hpat "too large" (by simp),
      hpat "400" (by simp), hpat "invalid format" (by simp),
      hpat "404" (by simp), hpat "not found" (by simp),
      hpat "401" (by simp), hpat "unauthorized" (by simp),
      hpat "network" (by simp), hpat "connection" (by simp),
      hpat "timeout" (by simp)]
    simp
  have htr : transcribeAudio (chunksSize s.audioChunks) env.hfKeySet env.hfApi
      = Except.ok ("Transcription failed: " ++ em) := by
    rw [hkey, hapi]
    simp [transcribeAudio, transcribeBody, h0, Nat.not_lt.mpr hsize, hmap]
  have hnon : transcribeAudio (chunksSize s.audioChunks) env.hfKeySet
      HfApiOutcome.raisedNonError = Except.ok msgTranscribeFallback := by
    rw [hkey]
    simp [transcribeAudio, transcribeBody, h0, Nat.not_lt.mpr hsize]
  refine ⟨htr, hnon, ?_⟩
  rw [hkey] at htr
  have hlen : 0 < s.audioChunks.length := List.length_pos.mpr hchunks
  cases hs : env.summarizeResult with
  | ok sum =>
      simp [stopRecording, hrec, hstop, hlen, Nat.pos_iff_ne_zero.mp hlen,
        processAudio, Nat.not_lt.mpr hsize, transcribeStep, hsvc, hkey, htr,
        htne, hg, hs, finalizeFlags]
  | error m =>
      simp [stopRecording, hrec, hstop, hlen, Nat.pos_iff_ne_zero.mp hlen,
        processAudio, Nat.not_lt.mpr hsize, transcribeStep, hsvc, hkey, htr,
        htne, hg, hs, finalizeFlags]

/-- Witness for C10: the unrecognized message `Unexpected token` is passed
through as `Transcription failed: Unexpected token` and summarized. -/
theorem transcribeAudio_unrecognized_failure_witness :
    transcribeAudio (chunksSize recState.audioChunks)
        ({ envOk with hfApi := HfApiOutcome.raised "Unexpected token" }).hfKeySet
        ({ envOk with hfApi := HfApiOutcome.raised "Unexpected token" }).hfApi
        = Except.ok ("Transcription failed: " ++ "Unexpected token") ∧
    transcribeAudio (chunksSize recState.audioChunks)
        ({ envOk with hfApi := HfApiOutcome.raised "Unexpected token" }).hfKeySet
        HfApiOutcome.raisedNonError = Except.ok msgTranscribeFallback ∧
    (stopRecording recState
        { envOk with hfApi := HfApiOutcome.raised "Unexpected token" }).state.transcript
        = "Transcription failed: " ++ "Unexpected token" ∧
    (stopRecording recState
        { envOk with hfApi := HfApiOutcome.raised "Unexpected token" }).summarizeInvoked
        = true :=
  transcribeAudio_unrecognized_failure recState
    { envOk with hfApi := HfApiOutcome.raised "Unexpected token" }
    "Unexpected token" (by decide) rfl rfl (by decide) (by decide) rfl rfl rfl
    (by decide) rfl

/-- The audio-processing block never touches the recorder handle. -/
theorem processAudio_recorder (s : CState) (env : StopEnv) :
    (processAudio s env).state.recorder = s.recorder := by
  by_cases h1 : chunksSize s.audioChunks < 1000
  · simp [processAudio, h1, finalizeFlags]
  · rcases h2 : transcribeStep (chunksSize s.audioChunks) env with ⟨res, inv⟩
    cases res with
    | error m => simp [processAudio, h1, h2, finalizeFlags]
    | ok t =>
      by_cases h3 : jsTrim t = ""
      · simp [processAudio, h1, h2, h3, finalizeFlags]
      · by_cases h4 : env.geminiKeySet
        · cases h5 : env.summarizeResult with
          | ok sum => simp [processAudio, h1, h2, h3, h4, h5, finalizeFlags]
          | error m => simp [processAudio, h1, h2, h3, h4, h5, finalizeFlags]
        · simp [processAudio, h1, h2, h3, h4, finalizeFlags]

/-- After a stop of an actively recording session, the recorder handle is
inactive, whatever the processing outcome was. -/
theorem stopRecording_recorder_inactive (s : CState) (env : StopEnv)
    (hrec : s.recorder = some RecorderState.recording)
    (hstop : env.stopFail = none) :
    (stopRecording s env).state.recorder = some RecorderState.inactive := by
  simp [stopRecording, hrec, hstop]
  split
  · rw [processAudio_recorder]
  · rfl

/-- C4: the watchdog interval is installed exactly when a start time exists
and the session is not paused (so it does not tick while `Paused`); a tick
whose elapsed seconds reach `maxRecordingDuration` performs exactly the
`stopRecording` transition a manual stop would perform at that instant; and
after that firing the recorder is inactive, so any further `stopRecording`
invocation (in particular from later watchdog ticks) changes nothing —
auto-stop has an effect exactly once. -/
theorem autoStop_behaves_like_stop (s : CState) (env env2 : StopEnv)
    (startMs nowMs : Nat)
    (hstart : s.startTime = some startMs)
    (hpause : s.isPaused = false)
    (hrec : s.recorder = some RecorderState.recording)
    (hstop : env.stopFail = none)
    (hfire : maxRecordingDuration ≤ (nowMs - startMs) / 1000) :
    watchdogActive s = true ∧
    watchdogActive { s with isPaused := true } = false ∧
    watchdogTick s nowMs env
      = stopRecording { s with duration := (nowMs - startMs) / 1000 } env ∧
    (watchdogTick s nowMs env).state.recorder = some RecorderState.inactive ∧
    stopRecording (watchdogTick s nowMs env).state env2
      = ⟨(watchdogTick s nowMs env).state, false, false⟩ := by
  have h1 : watchdogActive s = true := by simp [watchdogActive, hstart, hpause]
  have h2 : watchdogActive { s with isPaused := true } = false := by
    simp [watchdogActive]
  have h3 : watchdogTick s nowMs env
      = stopRecording { s with duration := (nowMs - startMs) / 1000 } env := by
    simp [watchdogTick, hstart, hfire]
  have h4 : (watchdogTick s nowMs env).state.recorder
      = some RecorderState.inactive := by
    rw [h3]
    exact stopRecording_recorder_inactive _ env hrec hstop
  have h5 : stopRecording (watchdogTick s nowMs env).state env2
      = ⟨(watchdogTick s nowMs env).state, false, false⟩ := by
    simp [stopRecording, h4]
  exact ⟨h1, h2, h3, h4, h5⟩

/-- Witness for C4: the fixture session started at 0 ms, ticking at
1 000 000 ms (elapsed 1000 s). -/
theorem autoStop_behaves_like_stop_witness :
    watchdogActive recState = true ∧
    watchdogActive { recState with isPaused := true } = false ∧
    watchdogTick recState 1000000 envOk
      = stopRecording { recState with duration := (1000000 - 0) / 1000 } envOk ∧
    (watchdogTick recState 1000000 envOk).state.recorder
      = some RecorderState.inactive ∧
    stopRecording (watchdogTick recState 1000000 envOk).state envOk
      = ⟨(watchdogTick recState 1000000 envOk).state, false, false⟩ :=
  autoStop_behaves_like_stop recState envOk envOk 0 1000000 rfl rfl rfl rfl
    (by decide)

/-- Accumulator lemma for the core digit printer. -/
theorem toDigitsCore_append (fuel : Nat) : ∀ (n : Nat) (ds : List Char),
    Nat.toDigitsCore 10 fuel n ds = Nat.toDigitsCore 10 fuel n [] ++ ds := by
  induction fuel with
  | zero => intro n ds; simp [Nat.toDigitsCore]
  | succ m ih =>
      intro n ds
      simp only [Nat.toDigitsCore]
      by_cases h : n / 10 = 0
      · simp [h]
      · simp only [h, if_false]
        rw [ih (n / 10) (Nat.digitChar (n % 10) :: ds),
            ih (n / 10) [Nat.digitChar (n % 10)]]
        simp

/-- Decoding a digit character produced by `Nat.digitChar`. -/
theorem digitChar_decode : ∀ d, d < 10 → (Nat.digitChar d).toNat - 48 = d := by
  decide

/-- Function `decodeDigits` inverts the core digit printer on sufficient fuel. -/
theorem decodeDigits_toDigitsCore (fuel : Nat) : ∀ n, n < fuel →
    decodeDigits (Nat.toDigitsCore 10 fuel n []) = n := by
  induction fuel with
  | zero => intro n h; omega
  | succ m ih =>
      intro n h
      simp only [Nat.toDigitsCore]
      by_cases h0 : n / 10 = 0
      · have hn : n < 10 := by omega
        simp only [h0, if_true]
        simp [decodeDigits, digitChar_decode (n % 10) (Nat.mod_lt n (by norm_num))]
        omega
      · simp only [h0, if_false]
        rw [toDigitsCore_append]
        have hlt : n / 10 < m := by
          have h1 : n / 10 < n := Nat.div_lt_self (by omega) (by norm_num)
          omega
        calc decodeDigits
              (Nat.toDigitsCore 10 m (n / 10) [] ++ [Nat.digitChar (n % 10)])
            = 10 * decodeDigits (Nat.toDigitsCore 10 m (n / 10) [])
                + ((Nat.digitChar (n % 10)).toNat - 48) := by
              simp [decodeDigits, List.foldl_append]
          _ = 10 * (n / 10) + n % 10 := by
              rw [ih (n / 10) hlt,
                digitChar_decode (n % 10) (Nat.mod_lt n (by norm_num))]
          _ = n := Nat.div_add_mod n 10

/-- Printing `Nat.repr` (the implementation of `toString` on natural numbers, hence of
`Date.now().toString()` in the model) is injective. -/
theorem natRepr_injective (n m : Nat) (h : Nat.repr n = Nat.repr m) : n = m := by
  have hdata : Nat.toDigits 10 n = Nat.toDigits 10 m := by
    have h2 := congrArg String.data h
    simpa [Nat.repr, List.asString] using h2
  have h1 := decodeDigits_toDigitsCore (n + 1) n (Nat.lt_succ_self n)
  have h2 := decodeDigits_toDigitsCore (m + 1) m (Nat.lt_succ_self m)
  simp only [Nat.toDigits] at hdata
  rw [← h1, ← h2, hdata]

/-- Counterexample to C8 as stated: two stop runs completing in the same
millisecond (`Date.now() = 42` for both) create two distinct MeetingRecords
that carry the same id `"42"`. -/
theorem same_millisecond_id_collision :
    (stopRecording recState
        { envOk with nowMs := 42, hfApi := HfApiOutcome.ok "first",
                     summarizeResult := Except.ok "S1" }).state.summaryHistory
        = [mkMeetingSummary 42 envOk.dateISO 12 "S1" "first"] ∧
    (stopRecording recState
        { envOk with nowMs := 42, hfApi := HfApiOutcome.ok "second",
                     summarizeResult := Except.ok "S2" }).state.summaryHistory
        = [mkMeetingSummary 42 envOk.dateISO 12 "S2" "second"] ∧
    mkMeetingSummary 42 envOk.dateISO 12 "S1" "first"
        ≠ mkMeetingSummary 42 envOk.dateISO 12 "S2" "second" ∧
    (mkMeetingSummary 42 envOk.dateISO 12 "S1" "first").id
        = (mkMeetingSummary 42 envOk.dateISO 12 "S2" "second").id := by
  decide

/-- C8 as amended: records created by the controller at distinct `Date.now()`
values receive distinct ids (ids are the decimal print of the creation-time
millisecond clock, so uniqueness holds exactly when those clock values
differ — two records created within the same millisecond share an id). -/
theorem mkMeetingSummary_distinct_ids (n m : Nat) (d d' : String)
    (du du' : Nat) (sm sm' t t' : String) (h : n ≠ m) :
    (mkMeetingSummary n d du sm t).id ≠ (mkMeetingSummary m d' du' sm' t').id := by
  intro hc
  simp only [mkMeetingSummary] at hc
  exact h (natRepr_injective n m hc)

/-- Witness for the amended C8 at consecutive milliseconds 1 and 2. -/
theorem mkMeetingSummary_distinct_ids_witness :
    (mkMeetingSummary 1 "d" 0 "s" "t").id ≠ (mkMeetingSummary 2 "d" 0 "s" "t").id :=
  mkMeetingSummary_distinct_ids 1 2 "d" "d" 0 0 "s" "s" "t" "t" (by decide)
